import Mathlib

/-!
Verification of the api-pvp arena game engine.

This development is a shallow embedding of the simulation core of the
api-pvp repository: `src/game/GameEngine.js`, `src/game/Projectile.js` and
`src/game/constants.js`.  JS numbers are modelled as exact rationals (`ℚ`);
the one place where an `undefined` value enters float arithmetic (the
missing `BULLET_SIZE` constant) is modelled with `Option ℚ`, where `none`
stands for the undefined/NaN value and follows the JS coercion rules
(`undefined + x` is `NaN`, and every `<` comparison against `NaN` is
`false`).  JS `Map`s are insertion-ordered, so they are modelled as lists
of values keyed by their `id` fields.  `Player.js` and `Arena.js` are not
among the provided sources; those two components are modelled from the
spec and are marked as such in their doc comments.
-/

namespace ApiPvp

/-- A JS number that may be `undefined`/`NaN`: `none` models the
non-numeric value that arises when `undefined` enters float arithmetic. -/
abbrev JsNum := Option ℚ

/-- JS `+` when one operand may be undefined: `undefined + x` is `NaN`,
and `NaN` propagates. -/
def jsAdd : JsNum → JsNum → JsNum
  | some a, some b => some (a + b)
  | _, _ => none

/-- JS comparison `Math.hypot dx dy < c` for rational inputs: the hypot is
the nonnegative square root of `dx² + dy²`, so for a rational bound `c` the
comparison holds exactly when `0 < c` and `dx² + dy² < c²`. -/
def hypotLt (dx dy c : ℚ) : Bool :=
  decide (0 < c ∧ dx ^ 2 + dy ^ 2 < c ^ 2)

/-- Squared form of `GameEngine._pointSegDist` (minimum distance from point
`(px, py)` to the segment from `(ax, ay)` to `(bx, byv)`).  The source
returns the euclidean distance via `Math.hypot`; we compute its square,
which determines every comparison made with it, since the distance is
nonnegative and squaring is monotone on nonnegative reals. -/
def pointSegDistSq (px py ax ay bx byv : ℚ) : ℚ :=
  let dx := bx - ax
  let dy := byv - ay
  let lenSq := dx * dx + dy * dy
  if lenSq = 0 then (px - ax) ^ 2 + (py - ay) ^ 2
  else
    let t := max 0 (min 1 (((px - ax) * dx + (py - ay) * dy) / lenSq))
    (px - (ax + t * dx)) ^ 2 + (py - (ay + t * dy)) ^ 2

/-- JS comparison `dist < r` where `dist` is the nonnegative square root of
`d2` and `r` may be `NaN` (`none`): any comparison against `NaN` is
`false`; against a rational `r` it holds exactly when `0 < r` and
`d2 < r²`. -/
def distLt (d2 : ℚ) : JsNum → Bool
  | some r => decide (0 < r ∧ d2 < r ^ 2)
  | none => false

/- Embedding of `src/game/constants.js` (module.exports). -/
namespace C

def ARENA_WIDTH : ℚ := 40
def ARENA_HEIGHT : ℚ := 30
def TICK_RATE : ℕ := 20
def TICK_INTERVAL_MS : ℕ := 50
def PLAYER_HP : ℚ := 100
def PLAYER_AMMO : ℤ := 5
def PLAYER_MAX_AMMO : ℤ := 5
def PLAYER_SPEED : ℚ := 3 / 2
def PLAYER_SIZE : ℚ := 1 / 2
def BULLET_DAMAGE : ℚ := 25
def BULLET_SPEED : ℚ := 5
def BULLET_MAX_LIFETIME_TICKS : ℕ := 50
def MAX_BULLETS_PER_PLAYER : ℕ := 5
def RELOAD_AMOUNT : ℤ := 5
def RELOAD_COOLDOWN_TICKS : ℕ := 10
def MAX_ACTIONS_PER_SECOND : ℕ := 20
def MAX_BATTLE_DURATION_TICKS : ℕ := 2400

/-- The `DIRECTIONS` lookup table: `C.DIRECTIONS[direction]`, `none` when
the key is absent. -/
def DIRECTIONS : String → Option (ℚ × ℚ)
  | "up" => some (0, -1)
  | "down" => some (0, 1)
  | "left" => some (-1, 0)
  | "right" => some (1, 0)
  | _ => none

def MODE_TEST : String := "test"
def MODE_BATTLE : String := "battle"
def MODE_LOBBY : String := "lobby"
def MODE_FINISHED : String := "finished"

/-- `Projectile.js` destructures `BULLET_SIZE` from `constants.js`, but
`constants.js` does not export any `BULLET_SIZE` key, so in JS the binding
is `undefined`.  We model the undefined numeric constant as `none`. -/
def BULLET_SIZE : JsNum := none

end C

/-- An angle submitted to the API, represented by its exact cosine/sine
pair.  The source stores the angle in degrees and applies
`Math.cos`/`Math.sin` when resolving it; we carry the resolved unit vector
(with the Pythagorean identity as an invariant) so that all arithmetic
stays exact.  The source's normalisation of the degree value to `[0, 360)`
leaves the cosine/sine pair unchanged (periodicity), so it is the identity
on this representation. -/
structure Angle where
  cosv : ℚ
  sinv : ℚ
  unit : cosv ^ 2 + sinv ^ 2 = 1

/-- A queued action: `player.pendingAction = { action, direction, angle }`. -/
structure PendingAction where
  action : String
  direction : Option String
  angle : Option Angle

/-- Modelled from the spec: `Player.js` is not among the provided sources
(only its callers are).  Fields follow spec §3 "Player" and the constants
file: `hp` in `[0, maxHp]`, `ammo` in `[0, maxAmmo]`, `reloadCooldown` is a
ticks-remaining counter (0 = ready), `alive` means hp > 0, and `size` is
the fixed collision radius `PLAYER_SIZE`. -/
structure Player where
  id : String
  username : String
  x : ℚ
  y : ℚ
  color : Option String
  hp : ℚ
  maxHp : ℚ
  ammo : ℤ
  maxAmmo : ℤ
  reloadCooldown : ℕ
  alive : Bool
  ready : Bool
  kills : ℕ
  damageDealt : ℚ
  pendingAction : Option PendingAction
  size : ℚ

/-- Modelled from the spec: construction at registration (spec §3
lifecycle) — full hp/ammo, alive, no cooldown, no pending action, zero
stats. -/
def Player.create (id username : String) (x y : ℚ) (color : Option String) : Player :=
  { id := id, username := username, x := x, y := y, color := color,
            hp := C.PLAYER_HP, maxHp := C.PLAYER_HP,
            ammo := C.PLAYER_AMMO, maxAmmo := C.PLAYER_MAX_AMMO,
            reloadCooldown := 0, alive := true, ready := false,
            kills := 0, damageDealt := 0, pendingAction := none,
            size := C.PLAYER_SIZE }

/-- Modelled from the spec: damage application is raw subtraction clamped
at 0 (spec §3: hp ∈ [0, maxHp]; §4.1 step 3: "raw subtraction"), `alive`
tracks hp > 0, and the damage actually applied is returned — the engine
adds the returned value to the shooter's `damageDealt`, which the spec
requires to be monotonically non-decreasing. -/
def Player.takeDamage (p : Player) (amount : ℚ) : Player × ℚ :=
  let newHp := max 0 (p.hp - amount)
  ({ p with hp := newHp, alive := decide (0 < newHp) }, p.hp - newHp)

/-- Modelled from the spec: the per-tick cooldown decrement (spec §4.1
step 5: "every player's reload cooldown counter decrements toward
zero"). -/
def Player.tickCooldowns (p : Player) : Player :=
  if 0 < p.reloadCooldown then { p with reloadCooldown := p.reloadCooldown - 1 } else p

/-- Modelled from the spec: a reload cooldown is active exactly while the
ticks-remaining counter is positive (spec §3: "reloadCooldown
ticks-remaining counter (0 = ready)"). -/
def Player.isReloading (p : Player) : Bool :=
  decide (0 < p.reloadCooldown)

/-- Modelled from the spec: battle-start reset (spec §3 lifecycle):
hp/ammo/position/alive restored, cooldown and pending action cleared;
kills and damageDealt are preserved (spec: "preserved or cleared per
mode"). -/
def Player.reset (p : Player) (x y : ℚ) : Player :=
  { p with x := x, y := y, hp := p.maxHp, ammo := p.maxAmmo,
           reloadCooldown := 0, alive := true, pendingAction := none }

/-- Embedding of the `Projectile` entity (src/game/Projectile.js). -/
structure Projectile where
  id : String
  ownerId : String
  x : ℚ
  y : ℚ
  dx : ℚ
  dy : ℚ
  damage : ℚ
  alive : Bool
  ticksLived : ℕ
  maxLifetime : ℕ
  size : JsNum

/-- Embedding of `Projectile.constructor`: velocity is the direction
scaled by `BULLET_SPEED`; `size` is assigned `BULLET_SIZE`, which
`constants.js` does not export, so the field is undefined (`none`). -/
def Projectile.create (id ownerId : String) (x y dx dy : ℚ) : Projectile :=
  { id := id, ownerId := ownerId, x := x, y := y,
            dx := dx * C.BULLET_SPEED, dy := dy * C.BULLET_SPEED,
            damage := C.BULLET_DAMAGE, alive := true, ticksLived := 0,
            maxLifetime := C.BULLET_MAX_LIFETIME_TICKS, size := C.BULLET_SIZE }

/-- Embedding of `Projectile.tick`: no-op when dead, otherwise advance by
the fixed velocity, count the tick, and expire once `ticksLived` reaches
`maxLifetime`. -/
def Projectile.tick (p : Projectile) : Projectile :=
  if !p.alive then p
  else
    let q := { p with x := p.x + p.dx, y := p.y + p.dy, ticksLived := p.ticksLived + 1 }
    if q.maxLifetime ≤ q.ticksLived then { q with alive := false } else q

/-- Embedding of `Projectile.destroy`. -/
def Projectile.destroy (p : Projectile) : Projectile :=
  { p with alive := false }

/-- Modelled from the spec: `Arena.js` is not among the provided sources.
Spec §1 defines only the query surface the core needs —
`isBlocked(x, y, radius)` and `getSpawnPoint(occupied)` — so an arena is
modelled as that pair of functions.  The radius argument is a `JsNum`
because the engine passes the undefined `proj.size` at one call site. -/
structure Arena where
  isBlocked : ℚ → ℚ → JsNum → Bool
  getSpawnPoint : List (ℚ × ℚ) → ℚ × ℚ

/-- Entries of the engine's `battleLog`. -/
inductive LogEvent
  | kill (tick : ℕ) (killer victim : String)
  | hit (tick : ℕ) (shooter target : String) (damage : ℚ)
  | gameOver (tick : ℕ) (winner : String)

/-- The snapshot produced by `getFullState` and handed to the
`onStateUpdate` callback: mode, tick, players, live projectiles, winner.
The arena description included in the JS snapshot is omitted here (our
arena is a pair of query functions with no serialisable layout). -/
structure Snapshot where
  mode : String
  tick : ℕ
  players : List Player
  projectiles : List Projectile
  winner : Option Player

/-- Embedding of the `GameEngine` state.  JS `Map`s are insertion-ordered
association containers, kept as lists of values keyed by their `id`
fields; `tickInterval` is modelled by the Boolean `tickRunning`; the
`onStateUpdate` callback slot is modelled by `hasCallback` together with
the ghost list `broadcasts` recording every snapshot passed to the
callback; the uuid-based fresh projectile ids are modelled by the counter
`nextProjId`. -/
structure GameEngine where
  arena : Arena
  players : List Player
  projectiles : List Projectile
  mode : String
  tickCount : ℕ
  tickRunning : Bool
  hasCallback : Bool
  broadcasts : List Snapshot
  battleLog : List LogEvent
  winner : Option Player
  nextProjId : ℕ

/-- Embedding of the `GameEngine` constructor; the callback-slot flag is a
parameter because the surrounding server assigns `onStateUpdate` to battle
engines after construction. -/
def GameEngine.init (arena : Arena) (hasCallback : Bool) : GameEngine :=
  { arena := arena, players := [], projectiles := [], mode := C.MODE_TEST,
    tickCount := 0, tickRunning := false, hasCallback := hasCallback,
    broadcasts := [], battleLog := [], winner := none, nextProjId := 0 }

/-- Embedding of `GameEngine.getPlayer` / `this.players.get(id)`. -/
def GameEngine.getPlayer (e : GameEngine) (pid : String) : Option Player :=
  e.players.find? (fun p => p.id == pid)

/-- In-place update of a player value in the insertion-ordered map,
keyed by its id (JS mutates the stored object; order is unchanged). -/
def GameEngine.setPlayer (e : GameEngine) (p : Player) : GameEngine :=
  { e with players := e.players.map (fun q => if q.id == p.id then p else q) }

/-- Result shape of `registerPlayer`: `{ error, player }` on a duplicate
username, `{ player }` on success. -/
inductive RegisterResult
  | err (msg : String) (existing : Player)
  | ok (p : Player)

/-- Embedding of `GameEngine.registerPlayer`.  The uuid-derived fresh id
is external nondeterminism and is passed as the `newId` argument (callers
of the source either pass `forceId` or take a fresh uuid). -/
def GameEngine.registerPlayer (e : GameEngine) (username newId : String)
    (forceColor : Option String) : GameEngine × RegisterResult :=
  match e.players.find? (fun p => p.username == username) with
  | some p => (e, .err "Username already taken" p)
  | none =>
    let spawn := e.arena.getSpawnPoint (e.players.map (fun p => (p.x, p.y)))
    let player := Player.create newId username spawn.1 spawn.2 forceColor
    ({ e with players := e.players ++ [player] }, .ok player)

/-- Embedding of `GameEngine.removePlayer`: delete the player and every
projectile owned by that id. -/
def GameEngine.removePlayer (e : GameEngine) (pid : String) : GameEngine :=
  { e with players := e.players.filter (fun p => !(p.id == pid)),
           projectiles := e.projectiles.filter (fun pr => !(pr.ownerId == pid)) }

/-- Result shape of `submitAction` and `startBattle`. -/
inductive SubmitResult
  | err (msg : String)
  | ok

/-- Embedding of `GameEngine.submitAction`: synchronous validation (player
exists and is alive, known action kind, directional actions carry a named
direction or a finite numeric angle), then queue the action in the
player's single pending slot, overwriting any unconsumed one.  The angle
argument is present exactly when the source's
`typeof angle === 'number' && isFinite(angle)` test passes. -/
def GameEngine.submitAction (e : GameEngine) (pid : String) (action : String)
    (direction : Option String) (angle : Option Angle) : GameEngine × SubmitResult :=
  match e.getPlayer pid with
  | none => (e, .err "Invalid player or player is dead")
  | some player =>
    if !player.alive then (e, .err "Invalid player or player is dead")
    else if !(["move", "shoot", "reload"].contains action) then
      (e, .err ("Invalid action: " ++ action))
    else
      let hasAngle := angle.isSome
      let hasDirection := match direction with
        | some d => (C.DIRECTIONS d).isSome
        | none => false
      if (action == "move" || action == "shoot") && !hasAngle && !hasDirection then
        (e, .err ("Provide direction (up/down/left/right) or angle in degrees (0-360) for '"
          ++ action ++ "'"))
      else
        (e.setPlayer { player with pendingAction := some ⟨action, direction, angle⟩ }, .ok)

/-- Direction resolution shared by `_handleMove` and `_handleShoot` (the
two code blocks are identical): a numeric angle resolves to its
cosine/sine pair and takes precedence; otherwise the named direction is
looked up in `DIRECTIONS`, and an unknown direction resolves to nothing
(the handler returns without acting). -/
def resolveVec (direction : Option String) (angle : Option Angle) : Option (ℚ × ℚ) :=
  match angle with
  | some a => some (a.cosv, a.sinv)
  | none =>
    match direction with
    | some d => C.DIRECTIONS d
    | none => none

/-- Embedding of `GameEngine._handleMove`: compute the destination, and
move only if the destination circle is neither blocked by the arena nor
overlapping any other living player's circle. -/
def GameEngine.handleMove (e : GameEngine) (player : Player)
    (direction : Option String) (angle : Option Angle) : GameEngine :=
  match resolveVec direction angle with
  | none => e
  | some (dx, dy) =>
    let newX := player.x + dx * C.PLAYER_SPEED
    let newY := player.y + dy * C.PLAYER_SPEED
    if !(e.arena.isBlocked newX newY (some player.size)) then
      let blocked := e.players.any (fun other =>
        !(other.id == player.id) && other.alive &&
          hypotLt (newX - other.x) (newY - other.y) (player.size + other.size))
      if !blocked then e.setPlayer { player with x := newX, y := newY } else e
    else e

/-- Embedding of `GameEngine._handleShoot`.  The source normalises the
firing vector by `Math.hypot(dx, dy)`; every vector that reaches this
point is already a unit vector (a cosine/sine pair, or one of the four
cardinal direction vectors), so the division is by 1 and is written as the
identity here. -/
def GameEngine.handleShoot (e : GameEngine) (player : Player)
    (direction : Option String) (angle : Option Angle) : GameEngine :=
  if player.ammo ≤ 0 then e
  else if player.isReloading then e
  else if C.MAX_BULLETS_PER_PLAYER ≤
      (e.projectiles.filter (fun p => p.ownerId == player.id && p.alive)).length then e
  else
    match resolveVec direction angle with
    | none => e
    | some (dx, dy) =>
      let e2 := e.setPlayer { player with ammo := player.ammo - 1 }
      let pid := "b_" ++ toString e.nextProjId
      let spawnX := player.x + dx * (player.size + 1 / 5)
      let spawnY := player.y + dy * (player.size + 1 / 5)
      let projectile := Projectile.create pid player.id spawnX spawnY dx dy
      { e2 with projectiles := e2.projectiles ++ [projectile],
                nextProjId := e.nextProjId + 1 }

/-- Embedding of `GameEngine._handleReload`: no-op at full ammo or while
the reload cooldown is active; otherwise restore `RELOAD_AMOUNT` rounds
capped at `maxAmmo` and start the cooldown. -/
def GameEngine.handleReload (e : GameEngine) (player : Player) : GameEngine :=
  if player.maxAmmo ≤ player.ammo then e
  else if player.isReloading then e
  else e.setPlayer { player with
    ammo := min player.maxAmmo (player.ammo + C.RELOAD_AMOUNT),
    reloadCooldown := C.RELOAD_COOLDOWN_TICKS }

/-- One player's slot of `_processActions`: skip dead players and empty
slots, clear the slot first so a stale action is never replayed, then
dispatch by kind. -/
def GameEngine.processOne (e : GameEngine) (pid : String) : GameEngine :=
  match e.getPlayer pid with
  | none => e
  | some player =>
    if !player.alive then e
    else
      match player.pendingAction with
      | none => e
      | some pa =>
        let cleared := { player with pendingAction := none }
        let e2 := e.setPlayer cleared
        if pa.action == "move" then e2.handleMove cleared pa.direction pa.angle
        else if pa.action == "shoot" then e2.handleShoot cleared pa.direction pa.angle
        else if pa.action == "reload" then e2.handleReload cleared
        else e2

/-- Embedding of `GameEngine._processActions`: resolve every player's
pending action in map-iteration (insertion) order. -/
def GameEngine.processActions (e : GameEngine) : GameEngine :=
  (e.players.map (fun p => p.id)).foldl GameEngine.processOne e

/-- Embedding of `GameEngine._moveProjectiles`: tick every live
projectile. -/
def GameEngine.moveProjectiles (e : GameEngine) : GameEngine :=
  { e with projectiles := e.projectiles.map (fun p => if p.alive then p.tick else p) }

/-- One projectile's pass of `_checkProjectileCollisions`: reconstruct the
pre-move position, find the first living non-owning player (in iteration
order) whose centre is within `proj.size + player.size` of the path
segment, and on a hit apply damage, destroy the projectile, attribute
damage/kill to the shooter when present, and append log entries.  The
first match terminates the scan for this projectile. -/
def GameEngine.collideOne (e : GameEngine) (projId : String) : GameEngine :=
  match e.projectiles.find? (fun p => p.id == projId) with
  | none => e
  | some proj =>
    if !proj.alive then e
    else
      let prevX := proj.x - proj.dx
      let prevY := proj.y - proj.dy
      match e.players.find? (fun player =>
          player.alive && !(player.id == proj.ownerId) &&
            distLt (pointSegDistSq player.x player.y prevX prevY proj.x proj.y)
              (jsAdd proj.size (some player.size))) with
      | none => e
      | some victim =>
        let td := victim.takeDamage proj.damage
        let e3 := e.setPlayer td.1
        let destroyed := e3.projectiles.map
          (fun p => if p.id == proj.id then p.destroy else p)
        let e4 := { e3 with projectiles := destroyed }
        let e5 :=
          match e4.getPlayer proj.ownerId with
          | none => e4
          | some shooter =>
            let e6 := e4.setPlayer { shooter with
              damageDealt := shooter.damageDealt + td.2,
              kills := if !td.1.alive then shooter.kills + 1 else shooter.kills }
            if !td.1.alive then
              { e6 with battleLog := e6.battleLog ++
                [LogEvent.kill e6.tickCount shooter.username victim.username] }
            else e6
        { e5 with battleLog := e5.battleLog ++
          [LogEvent.hit e5.tickCount proj.ownerId victim.id td.2] }

/-- Embedding of `GameEngine._checkProjectileCollisions`: every projectile
gets its pass, in iteration order, over the in-place mutating state. -/
def GameEngine.checkProjectileCollisions (e : GameEngine) : GameEngine :=
  (e.projectiles.map (fun p => p.id)).foldl GameEngine.collideOne e

/-- Embedding of `GameEngine._checkProjectileWallCollisions`. -/
def GameEngine.checkProjectileWallCollisions (e : GameEngine) : GameEngine :=
  { e with projectiles := e.projectiles.map (fun p =>
      if p.alive && e.arena.isBlocked p.x p.y p.size then p.destroy else p) }

/-- Embedding of `GameEngine._tickCooldowns`. -/
def GameEngine.tickCooldowns (e : GameEngine) : GameEngine :=
  { e with players := e.players.map Player.tickCooldowns }

/-- Embedding of `GameEngine._cleanupProjectiles`: purge dead projectiles
from the live collection. -/
def GameEngine.cleanupProjectiles (e : GameEngine) : GameEngine :=
  { e with projectiles := e.projectiles.filter (fun p => p.alive) }

/-- Embedding of `GameEngine.getFullState`. -/
def GameEngine.getFullState (e : GameEngine) : Snapshot :=
  { mode := e.mode, tick := e.tickCount, players := e.players,
    projectiles := e.projectiles.filter (fun p => p.alive),
    winner := e.winner }

/-- The `if (this.onStateUpdate) this.onStateUpdate(this.getFullState())`
pattern: when the callback is installed, record the snapshot passed to
it. -/
def GameEngine.pushBroadcast (e : GameEngine) : GameEngine :=
  if e.hasCallback then { e with broadcasts := e.broadcasts ++ [e.getFullState] } else e

/-- The `alivePlayers` filter used by the win-condition check and by
`_endBattle`. -/
def GameEngine.aliveList (e : GameEngine) : List Player :=
  e.players.filter (fun p => p.alive)

/-- The state mutations of `GameEngine._endBattle` before its final
broadcast: stop the tick loop, set mode to `finished`, fix the winner —
the sole survivor when exactly one player is alive, otherwise the head of
the players sorted by descending hp (the JS comparator
`(a, b) => b.hp - a.hp` under a stable sort) — and append the `game_over`
log entry. -/
def GameEngine.endBattleCore (e : GameEngine) : GameEngine :=
  let e1 := { e with tickRunning := false, mode := C.MODE_FINISHED }
  let w : Option Player :=
    match e1.aliveList with
    | [a] => some a
    | _ => (e1.players.mergeSort (fun a b => decide (b.hp ≤ a.hp))).head?
  let e2 := { e1 with winner := w }
  { e2 with battleLog := e2.battleLog ++
    [LogEvent.gameOver e2.tickCount (match w with | some p => p.username | none => "none")] }

/-- Embedding of `GameEngine._endBattle`: the state mutations of
`endBattleCore`, then the final broadcast through the callback. -/
def GameEngine.endBattle (e : GameEngine) : GameEngine :=
  e.endBattleCore.pushBroadcast

/-- Embedding of `GameEngine._checkWinCondition`: end the battle when the
tick counter has reached the maximum battle duration, or when at most one
player is alive while the player map holds more than one player. -/
def GameEngine.checkWinCondition (e : GameEngine) : GameEngine :=
  if C.MAX_BATTLE_DURATION_TICKS ≤ e.tickCount then e.endBattle
  else if e.aliveList.length ≤ 1 ∧ 1 < e.players.length then e.endBattle
  else e

/-- Phases 1–6 of `GameEngine._tick` (after the tick-counter increment):
resolve actions, advance projectiles, projectile–player collisions,
projectile–wall collisions, cooldowns, and projectile cleanup. -/
def GameEngine.prePhases (e : GameEngine) : GameEngine :=
  ((((({ e with tickCount := e.tickCount + 1
       }).processActions).moveProjectiles).checkProjectileCollisions
       ).checkProjectileWallCollisions).tickCooldowns.cleanupProjectiles

/-- Embedding of `GameEngine._tick`: the eight phases in source order; the
win condition runs only in battle mode, and the final phase broadcasts the
state through the callback. -/
def GameEngine.tick (e : GameEngine) : GameEngine :=
  let m := e.prePhases
  let m2 := if m.mode == C.MODE_BATTLE then m.checkWinCondition else m
  m2.pushBroadcast

/-- Embedding of `GameEngine.startBattle`: rejected with no players;
otherwise set battle mode, reset the tick counter, winner and log, respawn
every player (the occupied-position list accumulating in iteration order),
clear projectiles, and start the tick loop. -/
def GameEngine.startBattle (e : GameEngine) : GameEngine × SubmitResult :=
  if e.players.length < 1 then (e, .err "Need at least 1 player to start")
  else
    let e1 := { e with mode := C.MODE_BATTLE, tickCount := 0, winner := none, battleLog := [] }
    let resetted := e1.players.foldl
      (fun (acc : List Player × List (ℚ × ℚ)) (p : Player) =>
        let spawn := e1.arena.getSpawnPoint acc.2
        (acc.1 ++ [p.reset spawn.1 spawn.2], acc.2 ++ [spawn]))
      ([], [])
    ({ e1 with players := resetted.1, projectiles := [], tickRunning := true }, .ok)

/-- Modelled from the spec: a concrete arena instance used to run the
spec's concrete scenarios.  Nothing is blocked, and spawn points are taken
from a fixed table indexed by how many positions are already occupied (the
spec fixes no layout: §1 leaves placement policy to the Arena
collaborator). -/
def openArena : Arena :=
  { isBlocked := fun _ _ _ => false,
    getSpawnPoint := fun occupied =>
      [((10 : ℚ), (15 : ℚ)), (20, 15), (30, 15)].getD occupied.length (0, 0) }

/-- The angle 0 degrees, as its exact cosine/sine pair (1, 0). -/
def angle0 : Angle := ⟨1, 0, by norm_num⟩

/-- External operations on an engine, for running operation traces: the
in-memory API surface used by the server (registration, removal, battle
start, action submission, and one timer tick). -/
inductive EngineOp
  | register (username newId : String)
  | remove (pid : String)
  | start
  | submit (pid action : String) (direction : Option String) (angle : Option Angle)
  | doTick

/-- Apply one external operation. -/
def GameEngine.applyOp (e : GameEngine) : EngineOp → GameEngine
  | .register u i => (e.registerPlayer u i none).1
  | .remove pid => e.removePlayer pid
  | .start => e.startBattle.1
  | .submit pid action d a => (e.submitAction pid action d a).1
  | .doTick => e.tick

/-- Run a trace of external operations. -/
def runOps (e : GameEngine) (ops : List EngineOp) : GameEngine :=
  ops.foldl GameEngine.applyOp e

/-- Formalisation of the claim's phrase "more than one player was ever
registered": the number of successful registrations along an operation
trace (this is spec vocabulary, not a quantity the engine stores — the
engine's win check reads the current `players.size` instead). -/
def specEverRegistered (e : GameEngine) : List EngineOp → ℕ
  | [] => 0
  | op :: ops =>
    (match op with
     | .register u i =>
       (match (e.registerPlayer u i none).2 with
        | .ok _ => 1
        | .err _ _ => 0)
     | _ => 0) + specEverRegistered (e.applyOp op) ops

/-- The spec's concrete two-player scenario (§8): Alice and Bob registered
into one engine, `startBattle`, then four rounds of Alice submitting a
shoot aimed straight at Bob (spawns are laid out on the horizontal line
y = 15, so "Bob's spawn-relative angle" is 0 degrees) followed by one tick,
with Bob stationary throughout. -/
def c1Engine : GameEngine :=
  let e0 := GameEngine.init openArena true
  let e1 := (e0.registerPlayer "Alice" "p_alice" none).1
  let e2 := (e1.registerPlayer "Bob" "p_bob" none).1
  let e3 := e2.startBattle.1
  let step := fun (e : GameEngine) => ((e.submitAction "p_alice" "shoot" none (some angle0)).1).tick
  step (step (step (step e3)))

/-- The players' ids are pairwise distinct (JS `Map` keys are unique). -/
abbrev idsNodup (e : GameEngine) : Prop :=
  (e.players.map (fun p => p.id)).Nodup

/-- No living player's circle sits on blocked arena geometry. -/
abbrev blockedFree (e : GameEngine) : Prop :=
  ∀ p ∈ e.players, p.alive = true → e.arena.isBlocked p.x p.y (some p.size) = false

/-- No two living players' collision circles overlap. -/
abbrev noOverlap (e : GameEngine) : Prop :=
  e.players.Pairwise (fun p q => p.alive = true → q.alive = true →
    hypotLt (p.x - q.x) (p.y - q.y) (p.size + q.size) = false)

/-- A resolved move action for one player, exactly as the action phase
dispatches it: skipped when the player is unknown or dead, otherwise
`_handleMove` (clearing the pending slot does not touch any field read by
the move handler). -/
def GameEngine.resolveMove (e : GameEngine) (pid : String)
    (direction : Option String) (angle : Option Angle) : GameEngine :=
  match e.getPlayer pid with
  | none => e
  | some p => if p.alive then e.handleMove p direction angle else e

/-- A sequence of resolved move actions. -/
def GameEngine.resolveMoves (e : GameEngine)
    (ms : List (String × Option String × Option Angle)) : GameEngine :=
  ms.foldl (fun s m => s.resolveMove m.1 m.2.1 m.2.2) e

/-- A resolved reload action for one player, exactly as the action phase
dispatches it. -/
def GameEngine.resolveReload (e : GameEngine) (pid : String) : GameEngine :=
  match e.getPlayer pid with
  | none => e
  | some p => if p.alive then e.handleReload p else e

theorem pushBroadcast_projectiles (e : GameEngine) :
    e.pushBroadcast.projectiles = e.projectiles := by
  unfold GameEngine.pushBroadcast; split <;> rfl

theorem pushBroadcast_mode (e : GameEngine) : e.pushBroadcast.mode = e.mode := by
  unfold GameEngine.pushBroadcast; split <;> rfl

theorem pushBroadcast_winner (e : GameEngine) : e.pushBroadcast.winner = e.winner := by
  unfold GameEngine.pushBroadcast; split <;> rfl

theorem pushBroadcast_players (e : GameEngine) : e.pushBroadcast.players = e.players := by
  unfold GameEngine.pushBroadcast; split <;> rfl

theorem pushBroadcast_hasCallback (e : GameEngine) :
    e.pushBroadcast.hasCallback = e.hasCallback := by
  unfold GameEngine.pushBroadcast; split <;> rfl

theorem pushBroadcast_tickRunning (e : GameEngine) :
    e.pushBroadcast.tickRunning = e.tickRunning := by
  unfold GameEngine.pushBroadcast; split <;> rfl

theorem getFullState_pushBroadcast (e : GameEngine) :
    e.pushBroadcast.getFullState = e.getFullState := by
  unfold GameEngine.pushBroadcast; split <;> rfl

theorem pushBroadcast_broadcasts_of_callback (e : GameEngine) (h : e.hasCallback = true) :
    e.pushBroadcast.broadcasts = e.broadcasts ++ [e.getFullState] := by
  unfold GameEngine.pushBroadcast
  rw [if_pos h]

theorem endBattle_projectiles (e : GameEngine) :
    e.endBattle.projectiles = e.projectiles := by
  unfold GameEngine.endBattle
  rw [pushBroadcast_projectiles]
  rfl

theorem endBattle_mode (e : GameEngine) : e.endBattle.mode = C.MODE_FINISHED := by
  unfold GameEngine.endBattle
  rw [pushBroadcast_mode]
  rfl

theorem endBattle_tickRunning (e : GameEngine) : e.endBattle.tickRunning = false := by
  unfold GameEngine.endBattle
  rw [pushBroadcast_tickRunning]
  rfl

theorem endBattle_hasCallback (e : GameEngine) :
    e.endBattle.hasCallback = e.hasCallback := by
  unfold GameEngine.endBattle
  rw [pushBroadcast_hasCallback]
  rfl

theorem checkWinCondition_projectiles (e : GameEngine) :
    e.checkWinCondition.projectiles = e.projectiles := by
  unfold GameEngine.checkWinCondition
  split
  · rw [endBattle_projectiles]
  · split
    · rw [endBattle_projectiles]
    · rfl

/-- The battle ends on this win-condition pass exactly under the source's
two conditions. -/
theorem checkWinCondition_eq_endBattle (e : GameEngine)
    (h : C.MAX_BATTLE_DURATION_TICKS ≤ e.tickCount
      ∨ (e.aliveList.length ≤ 1 ∧ 1 < e.players.length)) :
    e.checkWinCondition = e.endBattle := by
  unfold GameEngine.checkWinCondition
  rcases h with h1 | h2
  · rw [if_pos h1]
  · by_cases h1 : C.MAX_BATTLE_DURATION_TICKS ≤ e.tickCount
    · rw [if_pos h1]
    · rw [if_neg h1, if_pos h2]

theorem projectile_dead_tick (p : Projectile) (h : p.alive = false) : p.tick = p := by
  unfold Projectile.tick
  rw [h]
  rfl

theorem projectile_dead_iterate (p : Projectile) (h : p.alive = false) (n : ℕ) :
    Projectile.tick^[n] p = p := by
  induction n with
  | zero => rfl
  | succ k ih => rw [Function.iterate_succ_apply, projectile_dead_tick p h, ih]

/-- The whole life of a freshly constructed projectile, up to the tick on
which it expires: each tick adds the fixed velocity, increments
`ticksLived`, and the `alive` flag holds exactly while `ticksLived` is
below `maxLifetime`. -/
theorem projectile_iterate_create (i o : String) (x y dx dy : ℚ) :
    ∀ n : ℕ, n ≤ C.BULLET_MAX_LIFETIME_TICKS →
      Projectile.tick^[n] (Projectile.create i o x y dx dy)
        = { id := i, ownerId := o,
            x := x + n * (dx * C.BULLET_SPEED), y := y + n * (dy * C.BULLET_SPEED),
            dx := dx * C.BULLET_SPEED, dy := dy * C.BULLET_SPEED,
            damage := C.BULLET_DAMAGE,
            alive := decide (n < C.BULLET_MAX_LIFETIME_TICKS),
            ticksLived := n, maxLifetime := C.BULLET_MAX_LIFETIME_TICKS,
            size := C.BULLET_SIZE } := by
  intro n
  induction n with
  | zero =>
    intro _
    simp [Projectile.create, C.BULLET_MAX_LIFETIME_TICKS]
  | succ k ih =>
    intro hk
    have hk' : k ≤ C.BULLET_MAX_LIFETIME_TICKS := Nat.le_of_succ_le hk
    have hklt : k < C.BULLET_MAX_LIFETIME_TICKS := hk
    rw [Function.iterate_succ_apply', ih hk']
    unfold Projectile.tick
    rw [decide_eq_true hklt]
    by_cases hc : C.BULLET_MAX_LIFETIME_TICKS ≤ k + 1
    · rw [if_pos hc]
      have : decide (k + 1 < C.BULLET_MAX_LIFETIME_TICKS) = false := by
        simp only [decide_eq_false_iff_not]
        omega
      simp only [Bool.not_true, Bool.false_eq_true, if_false, this, Projectile.mk.injEq,
        and_true, true_and]
      constructor <;> (push_cast; ring)
    · rw [if_neg hc]
      have : decide (k + 1 < C.BULLET_MAX_LIFETIME_TICKS) = true := by
        simp only [decide_eq_true_eq]
        omega
      simp only [Bool.not_true, Bool.false_eq_true, if_false, this, Projectile.mk.injEq,
        and_true, true_and]
      constructor <;> (push_cast; ring)

theorem cleanup_mem_alive (e : GameEngine) (p : Projectile)
    (h : p ∈ e.cleanupProjectiles.projectiles) : p.alive = true := by
  unfold GameEngine.cleanupProjectiles at h
  simpa using (List.mem_filter.1 h).2

/-- Every projectile still stored after a full engine tick is alive (phase
6 purges the dead ones, and the later phases do not touch the projectile
map). -/
theorem tick_mem_projectiles_alive (e : GameEngine) (p : Projectile)
    (h : p ∈ e.tick.projectiles) : p.alive = true := by
  unfold GameEngine.tick at h
  rw [pushBroadcast_projectiles] at h
  have h2 : p ∈ e.prePhases.projectiles := by
    split at h
    · rwa [checkWinCondition_projectiles] at h
    · exact h
  exact cleanup_mem_alive _ p h2

/-! ### Claim theorems: concrete runs and counterexamples -/

/-- Claim C1 (divergence run): the spec's concrete scenario — Alice and
Bob at default constants, `startBattle`, then four shoot actions from
Alice aimed straight at the stationary Bob across four ticks.  The spec
expects Bob at hp 0, dead, mode `finished`, winner Alice with one kill.
The code instead registers no hit at all: `constants.js` exports no
`BULLET_SIZE`, so `proj.size` is undefined, the collision threshold
`proj.size + player.size` is `NaN`, and `dist < NaN` is always false.
After the fourth tick Bob still has hp 100 and is alive, the mode is
still `battle`, there is no winner, Alice has 0 kills (and 1 ammo left
after the four shots), all four projectiles are still in flight, and the
battle log is empty. -/
theorem c1_scenario_no_hit :
    (c1Engine.getPlayer "p_bob").map (fun p => (p.hp, p.alive)) = some (100, true)
    ∧ c1Engine.mode = C.MODE_BATTLE
    ∧ c1Engine.winner.isNone = true
    ∧ (c1Engine.getPlayer "p_alice").map (fun p => (p.kills, p.ammo)) = some (0, 1)
    ∧ c1Engine.projectiles.length = 4
    ∧ c1Engine.battleLog.length = 0 := by
  decide

/-- Shooter for the C2 tunneling scenario. -/
def c2Shooter : Player := Player.create "p_a" "Alice" 5 15 none

/-- Stationary victim for the C2 tunneling scenario, radius 1/2. -/
def c2Victim : Player := Player.create "p_b" "Bob" 20 15 none

/-- A projectile whose path segment this tick, from (18, 15) to (23, 15),
passes straight through the victim's centre (20, 15); its per-tick
displacement (5) exceeds the victim's diameter (1). -/
def c2Proj : Projectile := Projectile.create "b_0" "p_a" 23 15 1 0

/-- Engine state for the C2 collision-phase run. -/
def c2Engine : GameEngine :=
  { GameEngine.init openArena false with
      players := [c2Shooter, c2Victim], projectiles := [c2Proj],
      mode := C.MODE_BATTLE, tickCount := 3 }

/-- Claim C2 (divergence run): the projectile's path segment passes
through the victim's centre (minimum squared distance 0), its per-tick
displacement (5) exceeds the victim's diameter (1), so under the claim the
collision phase must register a hit for any real bullet radius.  The code
registers nothing: `proj.size` is undefined (`BULLET_SIZE` is missing from
`constants.js`), the threshold is `NaN`, and the comparison is always
false — the victim's hp is unchanged and the projectile survives with no
log entry. -/
theorem c2_swept_hit_never_registers :
    pointSegDistSq c2Victim.x c2Victim.y (c2Proj.x - c2Proj.dx) (c2Proj.y - c2Proj.dy)
        c2Proj.x c2Proj.y = 0
    ∧ c2Proj.dx = 5 ∧ c2Victim.size = 1 / 2
    ∧ (c2Engine.checkProjectileCollisions.getPlayer "p_b").map (fun p => p.hp) = some 100
    ∧ c2Engine.checkProjectileCollisions.projectiles.map (fun p => p.alive) = [true]
    ∧ c2Engine.checkProjectileCollisions.battleLog.length = 0 := by
  refine ⟨?_, by norm_num [c2Proj, Projectile.create, C.BULLET_SPEED],
    by norm_num [c2Victim, Player.create, C.PLAYER_SIZE], by decide, by decide, by decide⟩
  norm_num [c2Victim, c2Proj, Player.create, Projectile.create, C.BULLET_SPEED,
    C.PLAYER_SIZE, pointSegDistSq, min_def, max_def]

/-- Claim C9: a projectile created at tick T with lifetime budget L is
never alive at tick T+L+1 — indeed its `alive` flag after n ticks is
exactly `n < L`; while alive it advances by its fixed per-tick velocity
and its `ticksLived` counter increments each tick; and every projectile
still stored after a full engine tick is alive (dead ones are purged), so
an expired projectile never survives an engine tick boundary. -/
theorem c9_projectile_lifetime (i o : String) (x y dx dy : ℚ) :
    (∀ n : ℕ, (Projectile.tick^[n] (Projectile.create i o x y dx dy)).alive
        = decide (n < C.BULLET_MAX_LIFETIME_TICKS))
    ∧ (∀ n : ℕ, n ≤ C.BULLET_MAX_LIFETIME_TICKS →
        (Projectile.tick^[n] (Projectile.create i o x y dx dy)).ticksLived = n
        ∧ (Projectile.tick^[n] (Projectile.create i o x y dx dy)).x
            = x + n * (dx * C.BULLET_SPEED)
        ∧ (Projectile.tick^[n] (Projectile.create i o x y dx dy)).y
            = y + n * (dy * C.BULLET_SPEED))
    ∧ (∀ e : GameEngine, ∀ p ∈ e.tick.projectiles, p.alive = true) := by
  refine ⟨?_, ?_, fun e p hp => tick_mem_projectiles_alive e p hp⟩
  · intro n
    by_cases hn : n ≤ C.BULLET_MAX_LIFETIME_TICKS
    · rw [projectile_iterate_create i o x y dx dy n hn]
    · have h50 : C.BULLET_MAX_LIFETIME_TICKS ≤ n := Nat.le_of_not_le hn
      obtain ⟨m, rfl⟩ : ∃ m, n = m + C.BULLET_MAX_LIFETIME_TICKS :=
        ⟨n - C.BULLET_MAX_LIFETIME_TICKS, by omega⟩
      have hdead :
          (Projectile.tick^[C.BULLET_MAX_LIFETIME_TICKS]
            (Projectile.create i o x y dx dy)).alive = false := by
        rw [projectile_iterate_create i o x y dx dy C.BULLET_MAX_LIFETIME_TICKS le_rfl]
        simp
      rw [Function.iterate_add_apply, projectile_dead_iterate _ hdead m, hdead]
      have hlt : decide (m + C.BULLET_MAX_LIFETIME_TICKS < C.BULLET_MAX_LIFETIME_TICKS)
          = false := by
        simp only [decide_eq_false_iff_not]
        omega
      rw [hlt]
  · intro n hn
    rw [projectile_iterate_create i o x y dx dy n hn]
    exact ⟨rfl, rfl, rfl⟩

/-- Claim C9 witness: the theorem applied at a concrete projectile and
tick count. -/
theorem c9_witness :
    (3 : ℕ) ≤ C.BULLET_MAX_LIFETIME_TICKS
    ∧ (Projectile.tick^[3] (Projectile.create "b_0" "p_a" 0 0 1 0)).ticksLived = 3 :=
  ⟨by decide, ((c9_projectile_lifetime "b_0" "p_a" 0 0 1 0).2.1 3 (by decide)).1⟩

/-- Claim C10: a registration whose username exactly matches an existing
player's username returns the error result carrying the already-registered
player object, and leaves the engine (in particular its player map)
unchanged. -/
theorem c10_duplicate_registration (e : GameEngine) (u newId : String)
    (c : Option String) (p : Player)
    (hfind : e.players.find? (fun q => q.username == u) = some p) :
    e.registerPlayer u newId c = (e, RegisterResult.err "Username already taken" p) := by
  unfold GameEngine.registerPlayer
  rw [hfind]

/-- Player already registered in the C10 witness engine. -/
def c10Player : Player := Player.create "p_z" "Zoe" 10 15 none

/-- Engine for the C10 witness. -/
def c10Engine : GameEngine :=
  { GameEngine.init openArena false with players := [c10Player] }

/-- Claim C10 witness: the theorem applied at a concrete engine holding a
player named "Zoe". -/
theorem c10_witness :
    c10Engine.players.find? (fun q => q.username == "Zoe") = some c10Player
    ∧ c10Engine.registerPlayer "Zoe" "p_new" none
        = (c10Engine, RegisterResult.err "Username already taken" c10Player) :=
  ⟨rfl, c10_duplicate_registration c10Engine "Zoe" "p_new" none c10Player rfl⟩

theorem endBattle_winner (e : GameEngine) :
    e.endBattle.winner
      = (match e.aliveList with
         | [a] => some a
         | _ => (e.players.mergeSort (fun a b => decide (b.hp ≤ a.hp))).head?) := by
  unfold GameEngine.endBattle
  rw [pushBroadcast_winner]
  rfl

theorem endBattle_broadcasts_of_callback (e : GameEngine) (h : e.hasCallback = true) :
    e.endBattle.broadcasts = e.broadcasts ++ [e.endBattle.getFullState] := by
  unfold GameEngine.endBattle
  rw [getFullState_pushBroadcast,
    pushBroadcast_broadcasts_of_callback e.endBattleCore (by exact h)]
  rfl

theorem endBattle_getFullState_mode (e : GameEngine) :
    e.endBattle.getFullState.mode = C.MODE_FINISHED := by
  unfold GameEngine.getFullState
  rw [endBattle_mode]

theorem endBattle_getFullState_winner (e : GameEngine) :
    e.endBattle.getFullState.winner = e.endBattle.winner := rfl

/-- The head of the players sorted by the JS comparator
`(a, b) => b.hp - a.hp` is a player of maximal hp. -/
theorem head_mergeSort_max (l : List Player) (w : Player)
    (hw : (l.mergeSort (fun a b => decide (b.hp ≤ a.hp))).head? = some w) :
    w ∈ l ∧ ∀ p ∈ l, p.hp ≤ w.hp := by
  have hsorted := @List.sorted_mergeSort Player (fun a b => decide (b.hp ≤ a.hp))
    (fun a b c hab hbc => by
      simp only [decide_eq_true_eq] at *
      exact le_trans hbc hab)
    (fun a b => by
      simp only [Bool.or_eq_true, decide_eq_true_eq]
      exact le_total b.hp a.hp)
    l
  have hperm := List.mergeSort_perm l (fun a b => decide (b.hp ≤ a.hp))
  cases hsort : l.mergeSort (fun a b => decide (b.hp ≤ a.hp)) with
  | nil =>
    rw [hsort] at hw
    simp at hw
  | cons h t =>
    rw [hsort] at hw
    have hhw : h = w := by simpa using hw
    subst hhw
    rw [hsort] at hsorted hperm
    constructor
    · exact hperm.mem_iff.1 (List.mem_cons_self h t)
    · intro p hp
      have hp2 : p ∈ h :: t := hperm.mem_iff.2 hp
      rcases List.mem_cons.1 hp2 with hph | hmem
      · rw [hph]
      · have := (List.pairwise_cons.1 hsorted).1 p hmem
        simpa using this

/-- Counterexample trace for C6: two players are registered (so two were
"ever registered"), the battle starts, one player is then removed, and a
tick runs. -/
def c6Trace : List EngineOp :=
  [.register "Alice" "p_a", .register "Bob" "p_b", .start, .remove "p_b", .doTick]

/-- Engine state after the C6 counterexample trace. -/
def c6Engine : GameEngine := runOps (GameEngine.init openArena false) c6Trace

/-- Claim C6 counterexample: after the trace, more than one player was
ever registered (two successful registrations) and at most one living
player remains (exactly one), with the time limit far off — so the claim
says the tick's win check must end the battle; the code instead reads the
current `players.size` (1 after the removal), so the tick leaves the mode
at `battle`, not `finished`. -/
theorem c6_counterexample :
    specEverRegistered (GameEngine.init openArena false) c6Trace = 2
    ∧ c6Engine.aliveList.length = 1
    ∧ c6Engine.tickCount < C.MAX_BATTLE_DURATION_TICKS
    ∧ c6Engine.mode = C.MODE_BATTLE
    ∧ ¬ c6Engine.mode = C.MODE_FINISHED := by
  refine ⟨by decide, by decide, by decide, by decide, by decide⟩

/-- Claim C6 as amended: with "more than one player was ever registered"
replaced by "more than one player is currently registered", the win check
(evaluated in battle mode) ends the battle exactly when the tick counter
has reached the maximum battle duration or at most one living player
remains among more than one currently registered; ending clears the
tick-loop flag; the winner is the sole survivor when exactly one player is
alive, and otherwise a player with maximal current hp among all registered
players. -/
theorem c6_win_condition (e : GameEngine) (hmode : e.mode = C.MODE_BATTLE) :
    (e.checkWinCondition.mode = C.MODE_FINISHED
      ↔ (C.MAX_BATTLE_DURATION_TICKS ≤ e.tickCount
          ∨ (e.aliveList.length ≤ 1 ∧ 1 < e.players.length)))
    ∧ (e.checkWinCondition.mode = C.MODE_FINISHED → e.checkWinCondition.tickRunning = false)
    ∧ (∀ a, (C.MAX_BATTLE_DURATION_TICKS ≤ e.tickCount
          ∨ (e.aliveList.length ≤ 1 ∧ 1 < e.players.length)) →
        e.aliveList = [a] → e.checkWinCondition.winner = some a)
    ∧ ((C.MAX_BATTLE_DURATION_TICKS ≤ e.tickCount
          ∨ (e.aliveList.length ≤ 1 ∧ 1 < e.players.length)) →
        e.aliveList.length ≠ 1 →
        ∀ w, e.checkWinCondition.winner = some w →
          w ∈ e.players ∧ ∀ p ∈ e.players, p.hp ≤ w.hp) := by
  have hne : ¬ C.MODE_BATTLE = C.MODE_FINISHED := by decide
  refine ⟨⟨?_, ?_⟩, ?_, ?_, ?_⟩
  · intro hfin
    by_contra hcond
    push_neg at hcond
    have h1 : ¬ C.MAX_BATTLE_DURATION_TICKS ≤ e.tickCount := not_le.mpr hcond.1
    have h2 : ¬ (e.aliveList.length ≤ 1 ∧ 1 < e.players.length) := by
      intro hand
      exact absurd (hcond.2 hand.1) (by omega)
    unfold GameEngine.checkWinCondition at hfin
    rw [if_neg h1, if_neg h2] at hfin
    rw [hmode] at hfin
    exact hne hfin
  · intro hcond
    rw [checkWinCondition_eq_endBattle e hcond, endBattle_mode]
  · intro hfin
    by_cases hcond : C.MAX_BATTLE_DURATION_TICKS ≤ e.tickCount
      ∨ (e.aliveList.length ≤ 1 ∧ 1 < e.players.length)
    · rw [checkWinCondition_eq_endBattle e hcond, endBattle_tickRunning]
    · exfalso
      push_neg at hcond
      have h2 : ¬ (e.aliveList.length ≤ 1 ∧ 1 < e.players.length) := by
        intro hand
        exact absurd (hcond.2 hand.1) (by omega)
      unfold GameEngine.checkWinCondition at hfin
      rw [if_neg (not_le.mpr hcond.1), if_neg h2] at hfin
      rw [hmode] at hfin
      exact hne hfin
  · intro a hcond ha
    rw [checkWinCondition_eq_endBattle e hcond, endBattle_winner, ha]
  · intro hcond hlen w hw
    rw [checkWinCondition_eq_endBattle e hcond, endBattle_winner] at hw
    have hw2 : (e.players.mergeSort (fun a b => decide (b.hp ≤ a.hp))).head? = some w := by
      rcases hlist : e.aliveList with _ | ⟨a, _ | ⟨b, t⟩⟩ <;> rw [hlist] at hw
      · exact hw
      · exact absurd (by simp [hlist]) hlen
      · exact hw
    exact head_mergeSort_max e.players w hw2

/-- Engine for the C6 witness: battle mode, no players. -/
def c6WEngine : GameEngine :=
  { GameEngine.init openArena false with mode := C.MODE_BATTLE }

/-- Claim C6 witness: the amended theorem applied at a concrete battle
engine. -/
theorem c6_witness :
    c6WEngine.mode = C.MODE_BATTLE
    ∧ (c6WEngine.checkWinCondition.mode = C.MODE_FINISHED
        ↔ (C.MAX_BATTLE_DURATION_TICKS ≤ c6WEngine.tickCount
            ∨ (c6WEngine.aliveList.length ≤ 1 ∧ 1 < c6WEngine.players.length))) :=
  ⟨rfl, (c6_win_condition c6WEngine rfl).1⟩

/-- Engine one tick before the time limit: one player, battle mode, with
the broadcast callback installed. -/
def c7Engine : GameEngine :=
  { GameEngine.init openArena true with
      players := [Player.create "p_a" "Alice" 10 15 none],
      mode := C.MODE_BATTLE, tickCount := 2399 }

/-- Claim C7 counterexample: on the tick in which the battle ends, the
state-update callback receives the final snapshot twice — once from
`_endBattle` and once from the tick's own final broadcast phase — not
exactly once as claimed. -/
theorem c7_counterexample :
    c7Engine.tick.broadcasts.length = 2
    ∧ c7Engine.tick.broadcasts.map (fun s => (s.mode, s.winner.map (fun w => w.username)))
        = [(C.MODE_FINISHED, some "Alice"), (C.MODE_FINISHED, some "Alice")] := by
  refine ⟨by decide, by decide⟩

/-- Claim C7 as amended: on the tick in which a battle ends, the
state-update callback is invoked with the final (mode = finished, winner
fixed) snapshot exactly twice — once immediately after the winner is fixed
(inside `_endBattle`) and once more at the end of the tick — both
invocations carrying the same final snapshot. -/
theorem c7_double_broadcast (e m : GameEngine) (hm : m = e.prePhases)
    (hmode : m.mode = C.MODE_BATTLE) (hcb : m.hasCallback = true)
    (hend : C.MAX_BATTLE_DURATION_TICKS ≤ m.tickCount
      ∨ (m.aliveList.length ≤ 1 ∧ 1 < m.players.length)) :
    e.tick.broadcasts
        = m.broadcasts ++ [m.endBattle.getFullState, m.endBattle.getFullState]
    ∧ m.endBattle.getFullState.mode = C.MODE_FINISHED
    ∧ m.endBattle.getFullState.winner = m.endBattle.winner := by
  refine ⟨?_, endBattle_getFullState_mode m, endBattle_getFullState_winner m⟩
  unfold GameEngine.tick
  rw [← hm]
  have hbeq : (m.mode == C.MODE_BATTLE) = true := by
    rw [hmode]
    exact beq_self_eq_true C.MODE_BATTLE
  show ((if (m.mode == C.MODE_BATTLE) = true then m.checkWinCondition else m
    ).pushBroadcast).broadcasts
      = m.broadcasts ++ [m.endBattle.getFullState, m.endBattle.getFullState]
  rw [if_pos hbeq]
  rw [checkWinCondition_eq_endBattle m hend]
  rw [pushBroadcast_broadcasts_of_callback m.endBattle (by rw [endBattle_hasCallback]; exact hcb)]
  rw [endBattle_broadcasts_of_callback m hcb]
  simp

/-- Claim C7 witness: the amended theorem applied at the concrete
end-of-battle engine. -/
theorem c7_witness :
    c7Engine.prePhases.mode = C.MODE_BATTLE
    ∧ c7Engine.prePhases.hasCallback = true
    ∧ C.MAX_BATTLE_DURATION_TICKS ≤ c7Engine.prePhases.tickCount
    ∧ c7Engine.tick.broadcasts
        = c7Engine.prePhases.broadcasts
          ++ [c7Engine.prePhases.endBattle.getFullState,
              c7Engine.prePhases.endBattle.getFullState] :=
  ⟨by decide, by decide, by decide,
    (c7_double_broadcast c7Engine c7Engine.prePhases rfl (by decide) (by decide)
      (Or.inl (by decide))).1⟩

/-- A registered player who is dead. -/
def c8Dead : Player :=
  { Player.create "p_d" "Dana" 10 15 none with alive := false, hp := 0 }

/-- Engine holding the dead player of the C8 scenario. -/
def c8Engine : GameEngine :=
  { GameEngine.init openArena false with players := [c8Dead] }

/-- Claim C8 counterexample: a dead registered player submitting an action
IS surfaced an error at submission time ("Invalid player or player is
dead"), contradicting the claim that the rejection is silent. -/
theorem c8_counterexample :
    (c8Engine.submitAction "p_d" "move" (some "up") none).2
      = SubmitResult.err "Invalid player or player is dead" := rfl

/-- Claim C8 as amended: a dead registered player's submission is rejected
with a synchronous error at submission time and queues nothing (the engine
is unchanged); a pending action left in the slot of a player who is dead
when the tick resolves actions is dropped silently as a no-op — only the
latter is a silent policy rejection. -/
theorem c8_dead_submission (e : GameEngine) (pid : String) (p : Player)
    (hp : e.getPlayer pid = some p) (hdead : p.alive = false)
    (action : String) (d : Option String) (a : Option Angle) :
    e.submitAction pid action d a = (e, SubmitResult.err "Invalid player or player is dead")
    ∧ e.processOne pid = e := by
  constructor
  · unfold GameEngine.submitAction
    rw [hp]
    simp [hdead]
  · unfold GameEngine.processOne
    rw [hp]
    simp [hdead]

/-- Claim C8 witness: the amended theorem applied at the concrete engine
holding the dead player. -/
theorem c8_witness :
    c8Engine.getPlayer "p_d" = some c8Dead
    ∧ c8Dead.alive = false
    ∧ c8Engine.submitAction "p_d" "shoot" (some "up") none
        = (c8Engine, SubmitResult.err "Invalid player or player is dead")
    ∧ c8Engine.processOne "p_d" = c8Engine :=
  ⟨rfl, rfl,
    (c8_dead_submission c8Engine "p_d" c8Dead rfl rfl "shoot" (some "up") none).1,
    (c8_dead_submission c8Engine "p_d" c8Dead rfl rfl "shoot" (some "up") none).2⟩

/-- One resolved reload keeps every player's ammo within its cap. -/
theorem reload_cap_step (e : GameEngine) (hcap : ∀ q ∈ e.players, q.ammo ≤ q.maxAmmo)
    (pid : String) : ∀ q ∈ (e.resolveReload pid).players, q.ammo ≤ q.maxAmmo := by
  unfold GameEngine.resolveReload
  cases hgp : e.getPlayer pid with
  | none => exact hcap
  | some p =>
    dsimp only
    by_cases halive : p.alive = true
    · rw [if_pos halive]
      intro q hq
      unfold GameEngine.handleReload at hq
      by_cases h0 : p.maxAmmo ≤ p.ammo
      · rw [if_pos h0] at hq
        exact hcap q hq
      · rw [if_neg h0] at hq
        by_cases h1 : p.isReloading = true
        · rw [if_pos h1] at hq
          exact hcap q hq
        · rw [if_neg h1] at hq
          obtain ⟨r, hr, hrq⟩ := List.mem_map.1 hq
          by_cases hid : (r.id == p.id) = true
          · rw [if_pos hid] at hrq
            rw [← hrq]
            exact min_le_left _ _
          · rw [if_neg hid] at hrq
            exact hrq ▸ hcap r hr
    · rw [if_neg halive]
      exact hcap

/-- Every sequence of resolved reloads keeps every player's ammo within
its cap. -/
theorem reload_cap_fold (e : GameEngine) (hcap : ∀ q ∈ e.players, q.ammo ≤ q.maxAmmo)
    (pids : List String) :
    ∀ q ∈ (pids.foldl GameEngine.resolveReload e).players, q.ammo ≤ q.maxAmmo := by
  induction pids generalizing e with
  | nil => exact hcap
  | cons pid rest ih =>
    exact ih (e.resolveReload pid) (reload_cap_step e hcap pid)

/-- Claim C4: resolving a shoot is a no-op (engine unchanged, so no
projectile and no ammo change) when ammo is non-positive, the reload
cooldown is active, or the shooter already has `MAX_BULLETS_PER_PLAYER`
live projectiles; otherwise exactly one projectile is appended, spawned
just outside the shooter's collision radius along the firing vector, and
the shooter's ammo decreases by exactly one — in particular ammo is never
pushed below 0. -/
theorem c4_shoot_rules (e : GameEngine) (p : Player) (d : Option String) (a : Option Angle) :
    ((p.ammo ≤ 0 ∨ p.isReloading = true
        ∨ C.MAX_BULLETS_PER_PLAYER ≤
            (e.projectiles.filter (fun pr => pr.ownerId == p.id && pr.alive)).length) →
      e.handleShoot p d a = e)
    ∧ (∀ dx dy, ¬ p.ammo ≤ 0 → p.isReloading = false →
        (e.projectiles.filter (fun pr => pr.ownerId == p.id && pr.alive)).length
            < C.MAX_BULLETS_PER_PLAYER →
        resolveVec d a = some (dx, dy) →
        (e.handleShoot p d a).projectiles
            = e.projectiles ++ [Projectile.create ("b_" ++ toString e.nextProjId) p.id
                (p.x + dx * (p.size + 1 / 5)) (p.y + dy * (p.size + 1 / 5)) dx dy]
          ∧ (e.handleShoot p d a).players
            = e.players.map (fun q => if q.id == p.id then { p with ammo := p.ammo - 1 } else q))
    ∧ (∀ q ∈ (e.handleShoot p d a).players,
        q ∈ e.players ∨ (0 < p.ammo ∧ q = { p with ammo := p.ammo - 1 })) := by
  refine ⟨?_, ?_, ?_⟩
  · intro h
    unfold GameEngine.handleShoot
    by_cases h0 : p.ammo ≤ 0
    · rw [if_pos h0]
    · rw [if_neg h0]
      by_cases h1 : p.isReloading = true
      · rw [if_pos h1]
      · rw [if_neg h1]
        have h2 : C.MAX_BULLETS_PER_PLAYER ≤
            (e.projectiles.filter (fun pr => pr.ownerId == p.id && pr.alive)).length := by
          rcases h with h | h | h
          · exact absurd h h0
          · exact absurd h h1
          · exact h
        rw [if_pos h2]
  · intro dx dy h0 h1 h2 hv
    unfold GameEngine.handleShoot
    rw [if_neg h0, h1, if_neg (by simp), if_neg (Nat.not_le.mpr h2), hv]
    exact ⟨rfl, rfl⟩
  · intro q hq
    unfold GameEngine.handleShoot at hq
    by_cases h0 : p.ammo ≤ 0
    · rw [if_pos h0] at hq
      exact Or.inl hq
    · rw [if_neg h0] at hq
      by_cases h1 : p.isReloading = true
      · rw [if_pos h1] at hq
        exact Or.inl hq
      · rw [if_neg h1] at hq
        by_cases h2 : C.MAX_BULLETS_PER_PLAYER ≤
            (e.projectiles.filter (fun pr => pr.ownerId == p.id && pr.alive)).length
        · rw [if_pos h2] at hq
          exact Or.inl hq
        · rw [if_neg h2] at hq
          cases hv : resolveVec d a with
          | none =>
            rw [hv] at hq
            exact Or.inl hq
          | some v =>
            obtain ⟨dx, dy⟩ := v
            rw [hv] at hq
            have hq2 : q ∈ e.players.map
                (fun r => if r.id == p.id then { p with ammo := p.ammo - 1 } else r) := hq
            obtain ⟨r, hr, hrq⟩ := List.mem_map.1 hq2
            by_cases hid : (r.id == p.id) = true
            · rw [if_pos hid] at hrq
              exact Or.inr ⟨not_le.mp h0, hrq.symm⟩
            · rw [if_neg hid] at hrq
              exact Or.inl (hrq ▸ hr)

/-- Claim C5: resolving a reload is a no-op when ammo is already at
`maxAmmo` or the reload cooldown is still running; otherwise ammo becomes
`min maxAmmo (ammo + RELOAD_AMOUNT)` and the cooldown timer is set to
`RELOAD_COOLDOWN_TICKS`; and the invariant "ammo never exceeds maxAmmo" is
preserved by every sequence of resolved reloads. -/
theorem c5_reload_rules (e : GameEngine) (p : Player) :
    ((p.maxAmmo ≤ p.ammo ∨ p.isReloading = true) → e.handleReload p = e)
    ∧ (¬ p.maxAmmo ≤ p.ammo → p.isReloading = false →
        (e.handleReload p).players
          = e.players.map (fun q => if q.id == p.id then
              { p with ammo := min p.maxAmmo (p.ammo + C.RELOAD_AMOUNT),
                       reloadCooldown := C.RELOAD_COOLDOWN_TICKS } else q))
    ∧ ((∀ q ∈ e.players, q.ammo ≤ q.maxAmmo) →
        ∀ pids : List String, ∀ q ∈ (pids.foldl GameEngine.resolveReload e).players,
          q.ammo ≤ q.maxAmmo) := by
  refine ⟨?_, ?_, ?_⟩
  · intro h
    unfold GameEngine.handleReload
    by_cases h0 : p.maxAmmo ≤ p.ammo
    · rw [if_pos h0]
    · rw [if_neg h0]
      have h1 : p.isReloading = true := by
        rcases h with h | h
        · exact absurd h h0
        · exact h
      rw [if_pos h1]
  · intro h0 h1
    unfold GameEngine.handleReload
    rw [if_neg h0, h1, if_neg (by simp)]
    rfl
  · intro hcap pids
    exact reload_cap_fold e hcap pids

/-- Shooter for the C4 witness. -/
def c4P : Player := Player.create "p_s" "Sam" 10 15 none

/-- Engine for the C4 witness. -/
def c4Engine : GameEngine :=
  { GameEngine.init openArena false with players := [c4P] }

/-- Claim C4 witness: the theorem applied at a concrete shooter with full
ammo, no cooldown and no live bullets. -/
theorem c4_witness :
    ¬ c4P.ammo ≤ 0
    ∧ c4P.isReloading = false
    ∧ (c4Engine.projectiles.filter (fun pr => pr.ownerId == c4P.id && pr.alive)).length
        < C.MAX_BULLETS_PER_PLAYER
    ∧ resolveVec (some "right") none = some (1, 0)
    ∧ (c4Engine.handleShoot c4P (some "right") none).projectiles
        = c4Engine.projectiles ++ [Projectile.create ("b_" ++ toString c4Engine.nextProjId)
            c4P.id (c4P.x + 1 * (c4P.size + 1 / 5)) (c4P.y + 0 * (c4P.size + 1 / 5)) 1 0] :=
  ⟨by decide, by decide, by decide, rfl,
    ((c4_shoot_rules c4Engine c4P (some "right") none).2.1 1 0 (by decide) (by decide)
      (by decide) rfl).1⟩

/-- Reloader for the C5 witness: two rounds left. -/
def c5P : Player := { Player.create "p_r" "Rae" 10 15 none with ammo := 2 }

/-- Engine for the C5 witness. -/
def c5Engine : GameEngine :=
  { GameEngine.init openArena false with players := [c5P] }

/-- Claim C5 witness: the theorem applied at a concrete player with two
rounds left and no cooldown. -/
theorem c5_witness :
    ¬ c5P.maxAmmo ≤ c5P.ammo
    ∧ c5P.isReloading = false
    ∧ (c5Engine.handleReload c5P).players
        = c5Engine.players.map (fun q => if q.id == c5P.id then
            { c5P with ammo := min c5P.maxAmmo (c5P.ammo + C.RELOAD_AMOUNT),
                       reloadCooldown := C.RELOAD_COOLDOWN_TICKS } else q) :=
  ⟨by decide, by decide, (c5_reload_rules c5Engine c5P).2.1 (by decide) (by decide)⟩

/-- The move-handler's overlap test is symmetric in the two players. -/
theorem hypotLt_comm (x1 y1 x2 y2 s t : ℚ) :
    hypotLt (x1 - x2) (y1 - y2) (s + t) = hypotLt (x2 - x1) (y2 - y1) (t + s) := by
  unfold hypotLt
  rw [add_comm t s, show x2 - x1 = -(x1 - x2) from by ring,
    show y2 - y1 = -(y1 - y2) from by ring, neg_sq, neg_sq]

/-- Case analysis of `_handleMove`: either the engine is unchanged, or the
destination was unblocked and clear of every other living player and the
mover was moved there. -/
theorem handleMove_analysis (e : GameEngine) (p : Player) (d : Option String)
    (a : Option Angle) :
    e.handleMove p d a = e
    ∨ ∃ dx dy, resolveVec d a = some (dx, dy)
        ∧ e.arena.isBlocked (p.x + dx * C.PLAYER_SPEED) (p.y + dy * C.PLAYER_SPEED)
            (some p.size) = false
        ∧ (∀ q ∈ e.players, (q.id == p.id) = false → q.alive = true →
            hypotLt (p.x + dx * C.PLAYER_SPEED - q.x) (p.y + dy * C.PLAYER_SPEED - q.y)
              (p.size + q.size) = false)
        ∧ e.handleMove p d a
            = e.setPlayer { p with x := p.x + dx * C.PLAYER_SPEED,
                                   y := p.y + dy * C.PLAYER_SPEED } := by
  unfold GameEngine.handleMove
  cases hv : resolveVec d a with
  | none => exact Or.inl rfl
  | some v =>
    obtain ⟨dx, dy⟩ := v
    dsimp only
    by_cases hbl : e.arena.isBlocked (p.x + dx * C.PLAYER_SPEED) (p.y + dy * C.PLAYER_SPEED)
        (some p.size) = true
    · left
      simp [hbl]
    · have hbl2 : e.arena.isBlocked (p.x + dx * C.PLAYER_SPEED) (p.y + dy * C.PLAYER_SPEED)
          (some p.size) = false := by
        cases hx : e.arena.isBlocked (p.x + dx * C.PLAYER_SPEED) (p.y + dy * C.PLAYER_SPEED)
            (some p.size)
        · rfl
        · exact absurd hx hbl
      by_cases hany : (e.players.any (fun other =>
          !(other.id == p.id) && other.alive &&
            hypotLt (p.x + dx * C.PLAYER_SPEED - other.x) (p.y + dy * C.PLAYER_SPEED - other.y)
              (p.size + other.size))) = true
      · left
        rw [hbl2, hany]
        rfl
      · have hany2 : (e.players.any (fun other =>
            !(other.id == p.id) && other.alive &&
              hypotLt (p.x + dx * C.PLAYER_SPEED - other.x) (p.y + dy * C.PLAYER_SPEED - other.y)
                (p.size + other.size))) = false := by
          cases hx : (e.players.any (fun other =>
              !(other.id == p.id) && other.alive &&
                hypotLt (p.x + dx * C.PLAYER_SPEED - other.x)
                  (p.y + dy * C.PLAYER_SPEED - other.y) (p.size + other.size)))
          · rfl
          · exact absurd hx hany
        right
        have hall := List.any_eq_false.mp hany2
        refine ⟨dx, dy, rfl, hbl2, ?_, by rw [hbl2, hany2]; rfl⟩
        intro q hq hid halive
        have hqf := hall q hq
        cases hy : hypotLt (p.x + dx * C.PLAYER_SPEED - q.x) (p.y + dy * C.PLAYER_SPEED - q.y)
            (p.size + q.size)
        · rfl
        · exfalso
          apply hqf
          rw [hid, halive, hy]
          rfl

/-- Replacing one player by a version that keeps its id, aliveness and
size, sits on unblocked geometry, and is clear of every other living
player, preserves the three positional invariants. -/
theorem setPlayer_moved_preserves (e : GameEngine) (p p2 : Player)
    (hnd : idsNodup e) (hb : blockedFree e) (hov : noOverlap e)
    (hid2 : p2.id = p.id) (hsz2 : p2.size = p.size)
    (hfree2 : e.arena.isBlocked p2.x p2.y (some p2.size) = false)
    (hclr : ∀ q ∈ e.players, (q.id == p.id) = false → q.alive = true →
        hypotLt (p2.x - q.x) (p2.y - q.y) (p.size + q.size) = false) :
    idsNodup (e.setPlayer p2) ∧ blockedFree (e.setPlayer p2) ∧ noOverlap (e.setPlayer p2) := by
  have hidf : ∀ q ∈ e.players,
      ((fun q => if q.id == p2.id then p2 else q) q).id = q.id := by
    intro q _
    dsimp only
    by_cases hid : (q.id == p2.id) = true
    · rw [if_pos hid]
      exact (beq_iff_eq.mp hid).symm
    · rw [if_neg hid]
  have hidpair : e.players.Pairwise (fun q r => ¬ q.id = r.id) := List.pairwise_map.1 hnd
  refine ⟨?_, ?_, ?_⟩
  · unfold idsNodup GameEngine.setPlayer
    dsimp only
    rw [List.map_map]
    have : (fun q => q.id) ∘ (fun q => if q.id == p2.id then p2 else q)
        = fun q => ((fun q => if q.id == p2.id then p2 else q) q).id := rfl
    rw [this, List.map_congr_left hidf]
    exact hnd
  · intro q hq halive2
    obtain ⟨r, hr, hrq⟩ := List.mem_map.1 hq
    by_cases hid : (r.id == p2.id) = true
    · rw [if_pos hid] at hrq
      rw [← hrq]
      exact hfree2
    · rw [if_neg hid] at hrq
      rw [← hrq] at halive2 ⊢
      exact hb r hr halive2
  · unfold noOverlap GameEngine.setPlayer
    dsimp only
    rw [List.pairwise_map]
    have hcomb := hov.and hidpair
    refine hcomb.imp_of_mem ?_
    intro q r hqm hrm hqr
    obtain ⟨hrel, hneq⟩ := hqr
    by_cases hq1 : (q.id == p2.id) = true <;> by_cases hr1 : (r.id == p2.id) = true
    · exact absurd (by rw [beq_iff_eq.mp hq1, beq_iff_eq.mp hr1]) hneq
    · rw [if_pos hq1, if_neg hr1]
      intro _ hral
      have hrne : (r.id == p.id) = false := by
        rw [beq_eq_false_iff_ne]
        rw [← hid2]
        exact fun hcon => hr1 (beq_iff_eq.mpr hcon)
      have := hclr r hrm hrne hral
      rw [hsz2]
      exact this
    · rw [if_neg hq1, if_pos hr1]
      intro hqal _
      have hqne : (q.id == p.id) = false := by
        rw [beq_eq_false_iff_ne]
        rw [← hid2]
        exact fun hcon => hq1 (beq_iff_eq.mpr hcon)
      have := hclr q hqm hqne hqal
      rw [hypotLt_comm] at this
      rw [hsz2]
      exact this
    · rw [if_neg hq1, if_neg hr1]
      exact hrel

/-- One resolved move preserves distinct ids, non-blocked positions, and
pairwise non-overlap of living players. -/
theorem resolveMove_preserves (e : GameEngine)
    (hnd : idsNodup e) (hb : blockedFree e) (hov : noOverlap e)
    (pid : String) (d : Option String) (a : Option Angle) :
    idsNodup (e.resolveMove pid d a) ∧ blockedFree (e.resolveMove pid d a)
      ∧ noOverlap (e.resolveMove pid d a) := by
  unfold GameEngine.resolveMove
  cases hgp : e.getPlayer pid with
  | none => exact ⟨hnd, hb, hov⟩
  | some p =>
    dsimp only
    by_cases halive : p.alive = true
    · rw [if_pos halive]
      rcases handleMove_analysis e p d a with heq | ⟨dx, dy, hv, hfree, hclr, heq⟩
      · rw [heq]
        exact ⟨hnd, hb, hov⟩
      · rw [heq]
        exact setPlayer_moved_preserves e p _ hnd hb hov rfl rfl hfree hclr
    · rw [if_neg halive]
      exact ⟨hnd, hb, hov⟩

/-- Every sequence of resolved moves preserves the three invariants. -/
theorem resolveMoves_preserves (e : GameEngine)
    (hnd : idsNodup e) (hb : blockedFree e) (hov : noOverlap e)
    (ms : List (String × Option String × Option Angle)) :
    idsNodup (e.resolveMoves ms) ∧ blockedFree (e.resolveMoves ms)
      ∧ noOverlap (e.resolveMoves ms) := by
  induction ms generalizing e with
  | nil => exact ⟨hnd, hb, hov⟩
  | cons m rest ih =>
    obtain ⟨h1, h2, h3⟩ := resolveMove_preserves e hnd hb hov m.1 m.2.1 m.2.2
    exact ih (e.resolveMove m.1 m.2.1 m.2.2) h1 h2 h3

/-- Claim C3: starting from a state whose living players sit on unblocked
positions with pairwise disjoint circles (and distinct ids), no sequence
of resolved move actions ever leaves a living player on blocked arena
geometry or overlapping another living player's circle; and a single move
whose destination circle is blocked by the arena or overlaps some other
living player's circle leaves the engine (in particular the mover's
position) completely unchanged, with no error surfaced. -/
theorem c3_move_safety (e : GameEngine)
    (hnd : idsNodup e) (hb : blockedFree e) (hov : noOverlap e) :
    (∀ ms, blockedFree (e.resolveMoves ms) ∧ noOverlap (e.resolveMoves ms))
    ∧ (∀ (p : Player) (d : Option String) (a : Option Angle) (dx dy : ℚ),
        resolveVec d a = some (dx, dy) →
        (e.arena.isBlocked (p.x + dx * C.PLAYER_SPEED) (p.y + dy * C.PLAYER_SPEED)
            (some p.size) = true
          ∨ ∃ q ∈ e.players, (q.id == p.id) = false ∧ q.alive = true ∧
              hypotLt (p.x + dx * C.PLAYER_SPEED - q.x) (p.y + dy * C.PLAYER_SPEED - q.y)
                (p.size + q.size) = true) →
        e.handleMove p d a = e) := by
  constructor
  · intro ms
    obtain ⟨_, h2, h3⟩ := resolveMoves_preserves e hnd hb hov ms
    exact ⟨h2, h3⟩
  · intro p d a dx dy hv hblock
    unfold GameEngine.handleMove
    rw [hv]
    dsimp only
    rcases hblock with hbl | ⟨q, hq, hid, hal, hlt⟩
    · simp [hbl]
    · have hany : e.players.any (fun other =>
          !(other.id == p.id) && other.alive &&
            hypotLt (p.x + dx * C.PLAYER_SPEED - other.x) (p.y + dy * C.PLAYER_SPEED - other.y)
              (p.size + other.size)) = true := by
        refine List.any_eq_true.2 ⟨q, hq, ?_⟩
        simp [hid, hal, hlt]
      by_cases hbl : e.arena.isBlocked (p.x + dx * C.PLAYER_SPEED)
          (p.y + dy * C.PLAYER_SPEED) (some p.size) = true
      · simp [hbl]
      · simp [show e.arena.isBlocked (p.x + dx * C.PLAYER_SPEED) (p.y + dy * C.PLAYER_SPEED)
            (some p.size) = false from by simpa using hbl, hany]

/-- Mover for the C3 witness. -/
def c3P : Player := Player.create "p_m" "Mona" 10 15 none

/-- Engine for the C3 witness. -/
def c3WEngine : GameEngine :=
  { GameEngine.init openArena false with players := [c3P] }

/-- Claim C3 witness: the theorem applied at a concrete one-player engine
and a single resolved move. -/
theorem c3_witness :
    idsNodup c3WEngine ∧ blockedFree c3WEngine ∧ noOverlap c3WEngine
    ∧ (blockedFree (c3WEngine.resolveMoves [("p_m", some "right", none)])
        ∧ noOverlap (c3WEngine.resolveMoves [("p_m", some "right", none)])) :=
  ⟨by decide, by decide, by decide,
    (c3_move_safety c3WEngine (by decide) (by decide) (by decide)).1
      [("p_m", some "right", none)]⟩

end ApiPvp
